import Mathlib

/-!
Verification of the portfolio metrics and strategy-simulation engine of the
Credit Portfolio Risk & Strategy Simulator (`app/dashboard.py`).

The dataframe operations of the dashboard are embedded as pure functions
over lists of rows; pandas `NaN` results of means over empty selections are
modelled as `Option.none`, and the float result of dividing by a zero
baseline is modelled by the explicit `PctResult` type (`nan`, `posInf`,
`negInf` for the IEEE special values that numpy produces without raising).
-/

/-- One customer row of the portfolio table.  Schema-optional columns
(`income_band`, `risk_segment`) are `Option`-valued: `none` models a pandas
`NaN` cell / absent column.  `risk_score` is only meaningful when the caller
says the `risk_score` column is present. -/
structure Row where
  customer_id : Nat
  acceptance_decision : String
  application_score : ℚ
  credit_limit : ℚ
  balance : ℚ
  utilization_rate : ℚ
  delinquency_status : ℤ
  income_band : Option String
  risk_segment : Option String
  risk_score : ℚ
  deriving Repr, DecidableEq

/-- The metrics dict built by `calculate_portfolio_metrics` for a non-empty
table.  Mean-based fields are `Option ℚ`: `none` models the pandas `NaN`
returned by `.mean()` on an empty selection. -/
structure Metrics where
  total_customers : Nat
  approved_customers : Nat
  approval_rate : ℚ
  portfolio_balance : ℚ
  total_limits : ℚ
  avg_utilization : Option ℚ
  avg_credit_score : Option ℚ
  delinquency_rate : Option ℚ
  delinquent_customers : Nat
  high_risk_customers : Nat
  deriving Repr, DecidableEq

/-- `df[df['acceptance_decision'] == 'Approved']` (dashboard.py line 119). -/
def approved_df (rows : List Row) : List Row :=
  rows.filter (fun r => r.acceptance_decision == "Approved")

/-- pandas `Series.mean()`: `NaN` (here `none`) on an empty series. -/
def qmean (l : List ℚ) : Option ℚ :=
  if l.length = 0 then none else some (l.sum / (l.length : ℚ))

/-- `(approved_df['delinquency_status'] > 0).mean() * 100`
(dashboard.py line 129): `NaN` (here `none`) when there are no approved
rows. -/
def delinqRatePct (l : List Row) : Option ℚ :=
  if l.length = 0 then none
  else some ((l.countP (fun r => decide (0 < r.delinquency_status)) : ℚ) / (l.length : ℚ) * 100)

/-- The metrics dict of `calculate_portfolio_metrics` (dashboard.py
lines 119-132), built for a (non-empty) table. -/
def metricsOf (rows : List Row) : Metrics :=
  let approved := approved_df rows
  { total_customers := rows.length
    approved_customers := approved.length
    approval_rate := if 0 < rows.length then (approved.length : ℚ) / (rows.length : ℚ) * 100 else 0
    portfolio_balance := (approved.map Row.balance).sum
    total_limits := (approved.map Row.credit_limit).sum
    avg_utilization := qmean (approved.map Row.utilization_rate)
    avg_credit_score := qmean (approved.map Row.application_score)
    delinquency_rate := delinqRatePct approved
    delinquent_customers := approved.countP (fun r => decide (0 < r.delinquency_status))
    high_risk_customers := approved.countP (fun r => r.risk_segment == some "High Risk") }

/-- `calculate_portfolio_metrics` (dashboard.py lines 113-134): on an empty
dataframe it returns the empty dict `{}` (modelled `none`); otherwise the
metrics dict. -/
def calculate_portfolio_metrics (rows : List Row) : Option Metrics :=
  if rows.isEmpty then none else some (metricsOf rows)

/-- The policy parameters of the strategy simulator (dashboard.py
lines 250-259). -/
structure Policy where
  min_score : ℚ
  limit_multiplier : ℚ
  target_income_bands : List String
  deriving Repr, DecidableEq

/-- pandas `Series.isin`: a `NaN` (absent) `income_band` cell never matches
any target list (dashboard.py line 271). -/
def isinIncome (targets : List String) (b : Option String) : Bool :=
  match b with
  | some s => targets.contains s
  | none => false

/-- The `eligible_mask` of the strategy simulator (dashboard.py
lines 269-272). -/
def eligibleRow (p : Policy) (r : Row) : Bool :=
  decide (p.min_score ≤ r.application_score) && isinIncome p.target_income_bands r.income_band

/-- Effect of `strategy_df.loc[~eligible_mask, 'acceptance_decision'] =
'Declined'` (dashboard.py line 273) on one row of the working copy. -/
def applyPolicyRow (p : Policy) (r : Row) : Row :=
  if eligibleRow p r then r else { r with acceptance_decision := "Declined" }

/-- The policy-adjusted working copy `strategy_df` (dashboard.py
lines 268-273). -/
def applyPolicy (p : Policy) (rows : List Row) : List Row :=
  rows.map (applyPolicyRow p)

/-- Result of the float division `(x - y) / y * 100`: numpy produces the
IEEE special values `nan` / `inf` / `-inf` (with a suppressed warning, no
exception) when the denominator is zero. -/
inductive PctResult where
  | pct (q : ℚ)
  | nan
  | posInf
  | negInf
  deriving Repr, DecidableEq

/-- `(strategy - baseline) / baseline * 100` (dashboard.py line 290) with
float semantics for a zero baseline. -/
def pctChange (strategy baseline : ℚ) : PctResult :=
  if baseline = 0 then
    if strategy - baseline = 0 then PctResult.nan
    else if 0 < strategy - baseline then PctResult.posInf
    else PctResult.negInf
  else PctResult.pct ((strategy - baseline) / baseline * 100)

/-- Subtraction of two possibly-`NaN` floats: `NaN` propagates. -/
def optSub (a b : Option ℚ) : Option ℚ :=
  match a, b with
  | some x, some y => some (x - y)
  | _, _ => none

/-- The baseline/simulated metrics and the deltas displayed by the
strategy simulator (dashboard.py lines 279-311). -/
structure SimResult where
  baseline : Metrics
  simulated : Metrics
  approval_change : ℚ
  balance_change : PctResult
  delinq_change : Option ℚ
  score_change : Option ℚ
  deriving Repr, DecidableEq

/-- Assembles the comparison record from the baseline and simulated
metrics dicts (dashboard.py lines 282-307). -/
def simResultOf (b s : Metrics) : SimResult :=
  { baseline := b
    simulated := s
    approval_change := s.approval_rate - b.approval_rate
    balance_change := pctChange s.portfolio_balance b.portfolio_balance
    delinq_change := optSub s.delinquency_rate b.delinquency_rate
    score_change := optSub s.avg_credit_score b.avg_credit_score }

/-- The simulation core of `create_strategy_simulation` (dashboard.py
lines 262-311): guard `if not df.empty`, baseline metrics on the input,
simulated metrics on the policy-adjusted working copy, then the deltas. -/
def create_strategy_simulation (p : Policy) (rows : List Row) : Option SimResult :=
  if rows.isEmpty then none
  else
    match calculate_portfolio_metrics rows, calculate_portfolio_metrics (applyPolicy p rows) with
    | some b, some s => some (simResultOf b s)
    | _, _ => none

/-- The two dataframe variables live during a simulation run:   `df` (the
loaded input) and `strategy_df` (the working copy). -/
structure SimHeap where
  df : List Row
  strategy_df : List Row
  deriving Repr, DecidableEq

/-- The statement sequence of dashboard.py lines 268-273 as explicit state
passing: `strategy_df = df.copy()`, then the `.loc` assignment mutates
`strategy_df` only. -/
def runSimulationSteps (p : Policy) (input : List Row) : SimHeap :=
  let h0 : SimHeap := { df := input, strategy_df := input }
  { h0 with strategy_df := applyPolicy p h0.strategy_df }

/-- `pd.cut(scores, bins=[0, 500, 600, 650, 700, 750, 900], labels=[...])`
(dashboard.py lines 207-211).  `pd.cut` uses right-closed intervals
(`right=True` default), and a value outside `(0, 900]` falls in no bin
(`NaN`, here `none`). -/
def score_band (x : ℚ) : Option String :=
  if 0 < x ∧ x ≤ 500 then some "<500"
  else if 500 < x ∧ x ≤ 600 then some "500-599"
  else if 600 < x ∧ x ≤ 650 then some "600-649"
  else if 650 < x ∧ x ≤ 700 then some "650-699"
  else if 700 < x ∧ x ≤ 750 then some "700-749"
  else if 750 < x ∧ x ≤ 900 then some "750+"
  else none

/-- Per-band customer count of the `groupby('score_band')` aggregation
(dashboard.py lines 213-217), over approved rows. -/
def band_customers (rows : List Row) (label : String) : Nat :=
  (approved_df rows).countP (fun r => score_band r.application_score == some label)

/-- Selection of the high-risk filter (dashboard.py lines 494-498):
approved rows with `balance >= min_balance`, `application_score <=
max_score`, `utilization_rate >= min_utilization`. -/
def hrSelect (min_balance max_score min_utilization : ℚ) (rows : List Row) : List Row :=
  (approved_df rows).filter (fun r =>
    decide (min_balance ≤ r.balance) &&
    decide (r.application_score ≤ max_score) &&
    decide (min_utilization ≤ r.utilization_rate))

/-- Descending order on `risk_score` (dashboard.py line 501). -/
def riskDesc (a b : Row) : Prop := b.risk_score ≤ a.risk_score

instance : DecidableRel riskDesc := fun a b => inferInstanceAs (Decidable (_ ≤ _))

/-- Descending lexicographic order on `(delinquency_status,
utilization_rate)` (dashboard.py line 503). -/
def hrLex (a b : Row) : Prop :=
  b.delinquency_status < a.delinquency_status ∨
    (a.delinquency_status = b.delinquency_status ∧ b.utilization_rate ≤ a.utilization_rate)

instance : DecidableRel hrLex := fun a b => inferInstanceAs (Decidable (_ ∨ _))

/-- The high-risk customer filter of the dashboard's High-Risk Customers
page (dashboard.py lines 494-503): select, then `sort_values` descending by
`risk_score` when that column is present, else by `(delinquency_status,
utilization_rate)` both descending.  pandas's default quicksort is not
stable, so the order among key-ties is not pinned by the source; the sort
is modelled by insertion sort on the same keys. -/
def filter_high_risk (hasRiskScore : Bool) (min_balance max_score min_utilization : ℚ)
    (rows : List Row) : List Row :=
  let sel := hrSelect min_balance max_score min_utilization rows
  if hasRiskScore then List.insertionSort riskDesc sel
  else List.insertionSort hrLex sel

/-- Fixture row builder: unused columns get neutral values. -/
def mkRow (decision : String) (score : ℚ) (inc : Option String) (bal util : ℚ) (dq : ℤ) : Row :=
  { customer_id := 0
    acceptance_decision := decision
    application_score := score
    credit_limit := 0
    balance := bal
    utilization_rate := util
    delinquency_status := dq
    income_band := inc
    risk_segment := none
    risk_score := 0 }

/-- Four approved rows with application scores 499, 500, 649, 650 (the
banding example of the spec). -/
def t4 : List Row :=
  [mkRow "Approved" 499 (some "Low") 0 0 0,
   mkRow "Approved" 500 (some "Low") 0 0 0,
   mkRow "Approved" 649 (some "Low") 0 0 0,
   mkRow "Approved" 650 (some "Low") 0 0 0]

/-- A policy accepting every income band, minimum score 500. -/
def pAll : Policy :=
  { min_score := 500, limit_multiplier := 1, target_income_bands := ["Low", "Medium", "High"] }

/-- Same as `pAll` but with a higher minimum score. -/
def pHi : Policy :=
  { min_score := 650, limit_multiplier := 1, target_income_bands := ["Low", "Medium", "High"] }

/-- Same as `pAll` except for the `limit_multiplier` value. -/
def pMult2 : Policy :=
  { min_score := 500, limit_multiplier := 2, target_income_bands := ["Low", "Medium", "High"] }

/-- One declined row: a non-empty table with zero approved rows. -/
def tDecl : List Row := [mkRow "Declined" 700 (some "Low") 100 50 0]

/-- An approved row whose `income_band` cell is absent (`NaN`). -/
def rNoInc : Row := mkRow "Approved" 700 none 100 50 0

/-- A small all-approved table used by witnesses. -/
def tSim : List Row :=
  [mkRow "Approved" 700 (some "Low") 100 50 0,
   mkRow "Approved" 600 (some "Medium") 200 40 1]

instance : IsTotal Row riskDesc :=
  ⟨fun a b => le_total b.risk_score a.risk_score⟩

instance : IsTrans Row riskDesc :=
  ⟨fun _ _ _ h1 h2 => le_trans h2 h1⟩

instance : IsTotal Row hrLex := by
  constructor
  intro a b
  rcases lt_trichotomy a.delinquency_status b.delinquency_status with h | h | h
  · exact Or.inr (Or.inl h)
  · rcases le_total b.utilization_rate a.utilization_rate with hu | hu
    · exact Or.inl (Or.inr ⟨h, hu⟩)
    · exact Or.inr (Or.inr ⟨h.symm, hu⟩)
  · exact Or.inl (Or.inl h)

instance : IsTrans Row hrLex := by
  constructor
  rintro a b c (h1 | ⟨h1, hu1⟩) (h2 | ⟨h2, hu2⟩)
  · exact Or.inl (lt_trans h2 h1)
  · exact Or.inl (h2 ▸ h1)
  · exact Or.inl (h1 ▸ h2)
  · exact Or.inr ⟨h1.trans h2, le_trans hu2 hu1⟩

theorem metrics_some_inv {rows : List Row} {m : Metrics}
    (h : calculate_portfolio_metrics rows = some m) : m = metricsOf rows := by
  by_cases hE : rows.isEmpty
  · simp [calculate_portfolio_metrics, hE] at h
  · simp [calculate_portfolio_metrics, hE] at h
    exact h.symm

theorem applyPolicy_isEmpty (p : Policy) (rows : List Row) :
    (applyPolicy p rows).isEmpty = rows.isEmpty := by
  cases rows <;> rfl

theorem calc_metrics_eq (rows : List Row) (h : rows.isEmpty = false) :
    calculate_portfolio_metrics rows = some (metricsOf rows) := by
  simp [calculate_portfolio_metrics, h]

theorem css_eq (p : Policy) (rows : List Row) (h : rows.isEmpty = false) :
    create_strategy_simulation p rows =
      some (simResultOf (metricsOf rows) (metricsOf (applyPolicy p rows))) := by
  have h2 : (applyPolicy p rows).isEmpty = false := by rw [applyPolicy_isEmpty]; exact h
  simp [create_strategy_simulation, h, calc_metrics_eq rows h,
    calc_metrics_eq (applyPolicy p rows) h2]

theorem css_nonempty {p : Policy} {rows : List Row} {r : SimResult}
    (h : create_strategy_simulation p rows = some r) : rows.isEmpty = false := by
  cases hE : rows.isEmpty
  · rfl
  · simp [create_strategy_simulation, hE] at h

theorem css_some_inv {p : Policy} {rows : List Row} {r : SimResult}
    (h : create_strategy_simulation p rows = some r) :
    r = simResultOf (metricsOf rows) (metricsOf (applyPolicy p rows)) := by
  have hne := css_nonempty h
  rw [css_eq p rows hne] at h
  exact (Option.some.inj h).symm

theorem applyPolicyRow_approved {p : Policy} {r : Row}
    (h : (applyPolicyRow p r).acceptance_decision = "Approved") :
    r.acceptance_decision = "Approved" := by
  unfold applyPolicyRow at h
  split_ifs at h with he
  · exact h
  · have hne : ("Declined" : String) ≠ "Approved" := by decide
    exact absurd h hne

theorem approved_df_applyPolicy (p : Policy) (rows : List Row) :
    approved_df (applyPolicy p rows) =
      rows.filter (fun r => eligibleRow p r && (r.acceptance_decision == "Approved")) := by
  induction rows with
  | nil => rfl
  | cons r rs ih =>
    unfold applyPolicy approved_df at ih ⊢
    simp only [List.map_cons, List.filter_cons]
    by_cases he : eligibleRow p r
    · simp [applyPolicyRow, he, ih]
    · simp [applyPolicyRow, he, ih]

theorem eligibleRow_mono {p1 p2 : Policy} (hb : p1.target_income_bands = p2.target_income_bands)
    (hm : p1.min_score ≤ p2.min_score) (r : Row) (h : eligibleRow p2 r = true) :
    eligibleRow p1 r = true := by
  unfold eligibleRow at h ⊢
  rw [Bool.and_eq_true] at h ⊢
  obtain ⟨h1, h2⟩ := h
  rw [decide_eq_true_iff] at h1 ⊢
  exact ⟨le_trans hm h1, hb ▸ h2⟩

/-- C1 counterexample: on the empty table, `calculate_portfolio_metrics`
returns the empty dict `{}` (not a metrics snapshot), so no result carrying
`total_customers = 0`, `approval_rate = 0`, `delinquency_rate = 0` exists. -/
theorem c1_counterexample : ¬ ∃ m : Metrics, calculate_portfolio_metrics ([] : List Row) = some m := by
  rintro ⟨m, h⟩
  simp [calculate_portfolio_metrics] at h

/-- C1 (amended): `calculate_portfolio_metrics` returns the empty dict
(modelled `none`, a result missing every metrics field) exactly when the
input table is empty; every non-empty table gets a full metrics dict. -/
theorem c1_empty_table_empty_dict : ∀ rows : List Row,
    calculate_portfolio_metrics rows = none ↔ rows = [] := by
  intro rows
  cases rows <;> simp [calculate_portfolio_metrics]

/-- C5: the simulation steps leave the input dataframe untouched; the
policy is applied only to the working copy `strategy_df`. -/
theorem c5_simulate_never_mutates_input : ∀ (p : Policy) (rows : List Row),
    (runSimulationSteps p rows).df = rows ∧
      (runSimulationSteps p rows).strategy_df = applyPolicy p rows :=
  fun _ _ => ⟨rfl, rfl⟩

/-- C9: `limit_multiplier` is a no-op policy field — two policies equal in
`min_score` and `target_income_bands` produce identical simulation output
(baseline metrics, simulated metrics and all deltas), whatever their
`limit_multiplier` values. -/
theorem c9_limit_multiplier_noop : ∀ (rows : List Row) (p1 p2 : Policy),
    p1.min_score = p2.min_score → p1.target_income_bands = p2.target_income_bands →
    create_strategy_simulation p1 rows = create_strategy_simulation p2 rows := by
  intro rows p1 p2 h1 h2
  have hrow : applyPolicyRow p1 = applyPolicyRow p2 := by
    funext r
    unfold applyPolicyRow eligibleRow
    rw [h1, h2]
  unfold create_strategy_simulation applyPolicy
  rw [hrow]

/-- C9 witness: `pAll` and `pMult2` differ only in `limit_multiplier`
(1 versus 2) and give the same simulation output on `tSim`. -/
theorem c9_witness : create_strategy_simulation pAll tSim = create_strategy_simulation pMult2 tSim :=
  c9_limit_multiplier_noop tSim pAll pMult2 rfl rfl

/-- C4 counterexample: the approved row `rNoInc` passes the score test of
`pAll` and has no `income_band`, yet the working copy declines it — pandas
`isin` never matches a missing cell, so the income criterion is not
vacuously satisfied. -/
theorem c4_counterexample :
    pAll.min_score ≤ rNoInc.application_score ∧ rNoInc.income_band = none ∧
      (applyPolicyRow pAll rNoInc).acceptance_decision = "Declined" := by decide

/-- C3 counterexample: on the spec's example scores 499, 500, 649, 650 the
band counts are 2, 0, 2, 0 — not the claimed 1, 1, 1, 1 — because `pd.cut`
bins are right-closed, so 500 lands in `<500` and 650 in `600-649`. -/
theorem c3_counterexample :
    band_customers t4 "<500" = 2 ∧ band_customers t4 "500-599" = 0 ∧
      band_customers t4 "600-649" = 2 ∧ band_customers t4 "650-699" = 0 := by decide

theorem score_band_eq1 (x : ℚ) : score_band x = some "<500" ↔ 0 < x ∧ x ≤ 500 := by
  unfold score_band
  split_ifs with h1 h2 h3 h4 h5 h6 <;>
    constructor <;> intro h <;>
    first
      | exact h1
      | rfl
      | exact absurd h (by decide)
      | exact absurd h h1

theorem score_band_eq2 (x : ℚ) : score_band x = some "500-599" ↔ 500 < x ∧ x ≤ 600 := by
  unfold score_band
  split_ifs with h1 h2 h3 h4 h5 h6 <;>
    constructor <;> intro h <;>
    first
      | exact h2
      | rfl
      | exact absurd h (by decide)
      | exact absurd h h2
      | (exfalso
         obtain ⟨ha, hb⟩ := h
         first
           | (obtain ⟨hc, hd⟩ := h1; linarith)
           | (obtain ⟨hc, hd⟩ := h2; linarith)
           | (obtain ⟨hc, hd⟩ := h3; linarith)
           | (obtain ⟨hc, hd⟩ := h4; linarith)
           | (obtain ⟨hc, hd⟩ := h5; linarith)
           | (obtain ⟨hc, hd⟩ := h6; linarith))

theorem score_band_eq3 (x : ℚ) : score_band x = some "600-649" ↔ 600 < x ∧ x ≤ 650 := by
  unfold score_band
  split_ifs with h1 h2 h3 h4 h5 h6 <;>
    constructor <;> intro h <;>
    first
      | exact h3
      | rfl
      | exact absurd h (by decide)
      | exact absurd h h3
      | (exfalso
         obtain ⟨ha, hb⟩ := h
         first
           | (obtain ⟨hc, hd⟩ := h1; linarith)
           | (obtain ⟨hc, hd⟩ := h2; linarith)
           | (obtain ⟨hc, hd⟩ := h3; linarith)
           | (obtain ⟨hc, hd⟩ := h4; linarith)
           | (obtain ⟨hc, hd⟩ := h5; linarith)
           | (obtain ⟨hc, hd⟩ := h6; linarith))

theorem score_band_eq4 (x : ℚ) : score_band x = some "650-699" ↔ 650 < x ∧ x ≤ 700 := by
  unfold score_band
  split_ifs with h1 h2 h3 h4 h5 h6 <;>
    constructor <;> intro h <;>
    first
      | exact h4
      | rfl
      | exact absurd h (by decide)
      | exact absurd h h4
      | (exfalso
         obtain ⟨ha, hb⟩ := h
         first
           | (obtain ⟨hc, hd⟩ := h1; linarith)
           | (obtain ⟨hc, hd⟩ := h2; linarith)
           | (obtain ⟨hc, hd⟩ := h3; linarith)
           | (obtain ⟨hc, hd⟩ := h4; linarith)
           | (obtain ⟨hc, hd⟩ := h5; linarith)
           | (obtain ⟨hc, hd⟩ := h6; linarith))

theorem score_band_eq5 (x : ℚ) : score_band x = some "700-749" ↔ 700 < x ∧ x ≤ 750 := by
  unfold score_band
  split_ifs with h1 h2 h3 h4 h5 h6 <;>
    constructor <;> intro h <;>
    first
      | exact h5
      | rfl
      | exact absurd h (by decide)
      | exact absurd h h5
      | (exfalso
         obtain ⟨ha, hb⟩ := h
         first
           | (obtain ⟨hc, hd⟩ := h1; linarith)
           | (obtain ⟨hc, hd⟩ := h2; linarith)
           | (obtain ⟨hc, hd⟩ := h3; linarith)
           | (obtain ⟨hc, hd⟩ := h4; linarith)
           | (obtain ⟨hc, hd⟩ := h5; linarith)
           | (obtain ⟨hc, hd⟩ := h6; linarith))

theorem score_band_eq6 (x : ℚ) : score_band x = some "750+" ↔ 750 < x ∧ x ≤ 900 := by
  unfold score_band
  split_ifs with h1 h2 h3 h4 h5 h6 <;>
    constructor <;> intro h <;>
    first
      | exact h6
      | rfl
      | exact absurd h (by decide)
      | exact absurd h h6
      | (exfalso
         obtain ⟨ha, hb⟩ := h
         first
           | (obtain ⟨hc, hd⟩ := h1; linarith)
           | (obtain ⟨hc, hd⟩ := h2; linarith)
           | (obtain ⟨hc, hd⟩ := h3; linarith)
           | (obtain ⟨hc, hd⟩ := h4; linarith)
           | (obtain ⟨hc, hd⟩ := h5; linarith)
           | (obtain ⟨hc, hd⟩ := h6; linarith))

theorem score_band_eq_none (x : ℚ) : score_band x = none ↔ x ≤ 0 ∨ 900 < x := by
  unfold score_band
  split_ifs with h1 h2 h3 h4 h5 h6 <;>
    constructor <;> intro h <;>
    first
      | exact absurd h (by decide)
      | rfl
      | (exfalso
         rcases h with h | h <;>
           first
             | (obtain ⟨hc, hd⟩ := h1; linarith)
             | (obtain ⟨hc, hd⟩ := h2; linarith)
             | (obtain ⟨hc, hd⟩ := h3; linarith)
             | (obtain ⟨hc, hd⟩ := h4; linarith)
             | (obtain ⟨hc, hd⟩ := h5; linarith)
             | (obtain ⟨hc, hd⟩ := h6; linarith))
      | (rcases le_or_lt x 0 with hx | hx
         · exact Or.inl hx
         · rcases le_or_lt x 900 with hx9 | hx9
           · exfalso
             rcases le_or_lt x 500 with hc | hc
             · exact h1 ⟨hx, hc⟩
             · rcases le_or_lt x 600 with hd | hd
               · exact h2 ⟨hc, hd⟩
               · rcases le_or_lt x 650 with he | he
                 · exact h3 ⟨hd, he⟩
                 · rcases le_or_lt x 700 with hf | hf
                   · exact h4 ⟨he, hf⟩
                   · rcases le_or_lt x 750 with hg | hg
                     · exact h5 ⟨hf, hg⟩
                     · exact h6 ⟨hg, hx9⟩
           · exact Or.inr hx9)

/-- C3 (amended): the score bands of `pd.cut` are left-open right-closed
intervals `(0,500], (500,600], (600,650], (650,700], (700,750], (750,900]`
with the labels `<500, 500-599, 600-649, 650-699, 700-749, 750+`; a score
outside `(0, 900]` falls in no band.  On the example scores
499, 500, 649, 650 the per-band counts are `<500`: 2, `600-649`: 2 and 0
for every other band. -/
theorem c3_bands_right_closed :
    (∀ x : ℚ,
      (score_band x = some "<500" ↔ 0 < x ∧ x ≤ 500) ∧
      (score_band x = some "500-599" ↔ 500 < x ∧ x ≤ 600) ∧
      (score_band x = some "600-649" ↔ 600 < x ∧ x ≤ 650) ∧
      (score_band x = some "650-699" ↔ 650 < x ∧ x ≤ 700) ∧
      (score_band x = some "700-749" ↔ 700 < x ∧ x ≤ 750) ∧
      (score_band x = some "750+" ↔ 750 < x ∧ x ≤ 900) ∧
      (score_band x = none ↔ x ≤ 0 ∨ 900 < x)) ∧
    band_customers t4 "<500" = 2 ∧ band_customers t4 "500-599" = 0 ∧
      band_customers t4 "600-649" = 2 ∧ band_customers t4 "650-699" = 0 ∧
      band_customers t4 "700-749" = 0 ∧ band_customers t4 "750+" = 0 :=
  ⟨fun x => ⟨score_band_eq1 x, score_band_eq2 x, score_band_eq3 x, score_band_eq4 x,
    score_band_eq5 x, score_band_eq6 x, score_band_eq_none x⟩,
   by decide, by decide, by decide, by decide, by decide, by decide⟩

theorem contains_iff_mem_str {l : List String} {b : String} : l.contains b = true ↔ b ∈ l :=
  List.elem_iff

/-- C4 (amended): the working copy marks a row Declined exactly when its
score is below `min_score`, or its income test fails — an absent
`income_band` always fails `isin`, so such rows are declined too — or the
row was already Declined. -/
theorem c4_declined_iff : ∀ (p : Policy) (r : Row),
    (applyPolicyRow p r).acceptance_decision = "Declined" ↔
      (r.application_score < p.min_score ∨
        (∀ b, r.income_band = some b → b ∉ p.target_income_bands) ∨
        r.acceptance_decision = "Declined") := by
  intro p r
  unfold applyPolicyRow
  by_cases he : eligibleRow p r
  · rw [if_pos he]
    unfold eligibleRow at he
    rw [Bool.and_eq_true, decide_eq_true_iff] at he
    obtain ⟨hs, hi⟩ := he
    constructor
    · exact fun h => Or.inr (Or.inr h)
    · rintro (h | h | h)
      · exact absurd hs (not_le.mpr h)
      · cases hib : r.income_band with
        | none => rw [hib] at hi; exact absurd hi (by simp [isinIncome])
        | some b0 =>
          rw [hib] at hi
          unfold isinIncome at hi
          exact absurd (contains_iff_mem_str.mp hi) (h b0 hib)
      · exact h
  · rw [if_neg he]
    have hd : ({ r with acceptance_decision := "Declined" } : Row).acceptance_decision =
        "Declined" := rfl
    rw [hd]
    simp only [true_iff]
    unfold eligibleRow at he
    rw [Bool.and_eq_true, decide_eq_true_iff] at he
    by_cases hs : p.min_score ≤ r.application_score
    · have hi : ¬ isinIncome p.target_income_bands r.income_band = true :=
        fun hb => he ⟨hs, hb⟩
      refine Or.inr (Or.inl ?_)
      intro b hb hmem
      apply hi
      rw [hb]
      unfold isinIncome
      exact contains_iff_mem_str.mpr hmem
    · exact Or.inl (not_le.mp hs)

/-- C2 counterexample: on the non-empty table `tDecl` with zero approved
rows, the delinquency rate is the `NaN` of an empty mean (modelled
`none`), not `0` as claimed. -/
theorem c2_counterexample :
    Option.map Metrics.delinquency_rate (calculate_portfolio_metrics tDecl) = some none ∧
      some (Option.none : Option ℚ) ≠ some (some (0 : ℚ)) := by decide

/-- C2 (amended): when a non-empty table has zero approved rows, the
delinquency rate — like the mean-based fields — is the `NaN` placeholder
(`none`), not `0`; when approved rows exist, it equals
`delinquent_customers / approved_customers * 100`. -/
theorem c2_delinquency_rate : ∀ (rows : List Row), rows ≠ [] →
    ∀ m : Metrics, calculate_portfolio_metrics rows = some m →
    (m.approved_customers = 0 →
      m.delinquency_rate = none ∧ m.avg_utilization = none ∧ m.avg_credit_score = none) ∧
    (m.approved_customers ≠ 0 →
      m.delinquency_rate =
        some ((m.delinquent_customers : ℚ) / (m.approved_customers : ℚ) * 100)) := by
  intro rows _ m hm
  have hme := metrics_some_inv hm
  subst hme
  constructor
  · intro h0
    have h0' : (approved_df rows).length = 0 := h0
    refine ⟨?_, ?_, ?_⟩
    · simp [metricsOf, delinqRatePct, h0']
    · simp [metricsOf, qmean, h0']
    · simp [metricsOf, qmean, h0']
  · intro h0
    have h0' : (approved_df rows).length ≠ 0 := h0
    simp [metricsOf, delinqRatePct, h0']

/-- C2 witness: on the one-row declined table `tDecl` the zero-approved
branch applies, and the rate and means are all `none`. -/
theorem c2_witness :
    ((metricsOf tDecl).approved_customers = 0 →
      (metricsOf tDecl).delinquency_rate = none ∧
        (metricsOf tDecl).avg_utilization = none ∧
        (metricsOf tDecl).avg_credit_score = none) ∧
    ((metricsOf tDecl).approved_customers ≠ 0 →
      (metricsOf tDecl).delinquency_rate =
        some (((metricsOf tDecl).delinquent_customers : ℚ) /
          ((metricsOf tDecl).approved_customers : ℚ) * 100)) :=
  c2_delinquency_rate tDecl (by decide) (metricsOf tDecl) (by rfl)

/-- C6: with income targets fixed, a higher `min_score` can only shrink
the simulated approved count. -/
theorem c6_min_score_monotone : ∀ (rows : List Row) (p1 p2 : Policy) (r1 r2 : SimResult),
    p1.target_income_bands = p2.target_income_bands →
    p1.min_score ≤ p2.min_score →
    create_strategy_simulation p1 rows = some r1 →
    create_strategy_simulation p2 rows = some r2 →
    r2.simulated.approved_customers ≤ r1.simulated.approved_customers := by
  intro rows p1 p2 r1 r2 hb hm h1 h2
  have e1 := css_some_inv h1
  have e2 := css_some_inv h2
  subst e1
  subst e2
  show (approved_df (applyPolicy p2 rows)).length ≤ (approved_df (applyPolicy p1 rows)).length
  rw [approved_df_applyPolicy, approved_df_applyPolicy]
  rw [← List.countP_eq_length_filter, ← List.countP_eq_length_filter]
  apply List.countP_mono_left
  intro r _ h
  simp only [Bool.and_eq_true] at h ⊢
  exact ⟨eligibleRow_mono hb hm r h.1, h.2⟩

/-- C6 witness: raising `min_score` from 500 (`pAll`) to 650 (`pHi`) does
not increase the simulated approved count on `tSim`. -/
theorem c6_witness :
    (simResultOf (metricsOf tSim) (metricsOf (applyPolicy pHi tSim))).simulated.approved_customers ≤
      (simResultOf (metricsOf tSim) (metricsOf (applyPolicy pAll tSim))).simulated.approved_customers :=
  c6_min_score_monotone tSim pAll pHi
    (simResultOf (metricsOf tSim) (metricsOf (applyPolicy pAll tSim)))
    (simResultOf (metricsOf tSim) (metricsOf (applyPolicy pHi tSim)))
    rfl (by decide) (by rfl) (by rfl)

theorem pctChange_spec (S B : ℚ) :
    (B ≠ 0 → pctChange S B = PctResult.pct ((S - B) / B * 100)) ∧
    (B = 0 →
      (S = 0 → pctChange S B = PctResult.nan) ∧
      (0 < S → pctChange S B = PctResult.posInf) ∧
      (S < 0 → pctChange S B = PctResult.negInf)) := by
  constructor
  · intro hne
    rw [pctChange, if_neg hne]
  · intro h0
    subst h0
    refine ⟨?_, ?_, ?_⟩
    · intro hs
      rw [pctChange, if_pos rfl, if_pos (by rw [hs, sub_zero])]
    · intro hs
      rw [pctChange, if_pos rfl, if_neg (by rw [sub_zero]; exact ne_of_gt hs),
        if_pos (by rw [sub_zero]; exact hs)]
    · intro hs
      rw [pctChange, if_pos rfl, if_neg (by rw [sub_zero]; exact ne_of_lt hs),
        if_neg (by rw [sub_zero]; exact not_lt.mpr (le_of_lt hs))]

/-- C7 (amended): the portfolio-balance comparison is the unguarded float
division `(simulated - baseline) / baseline * 100`; when the baseline
balance is 0 the result is the undefined IEEE value (`NaN` when the
simulated balance is also 0, `±inf` otherwise, warnings suppressed), not a
defined `0`/"not available" placeholder. -/
theorem c7_balance_pct_division : ∀ (rows : List Row) (p : Policy) (r : SimResult),
    create_strategy_simulation p rows = some r →
    (r.baseline.portfolio_balance ≠ 0 →
      r.balance_change =
        PctResult.pct ((r.simulated.portfolio_balance - r.baseline.portfolio_balance) /
          r.baseline.portfolio_balance * 100)) ∧
    (r.baseline.portfolio_balance = 0 →
      (r.simulated.portfolio_balance = 0 → r.balance_change = PctResult.nan) ∧
      (0 < r.simulated.portfolio_balance → r.balance_change = PctResult.posInf) ∧
      (r.simulated.portfolio_balance < 0 → r.balance_change = PctResult.negInf)) := by
  intro rows p r h
  have e := css_some_inv h
  subst e
  exact pctChange_spec (metricsOf (applyPolicy p rows)).portfolio_balance
    (metricsOf rows).portfolio_balance

/-- C7 witness: on `tSim` (baseline balance 300, nonzero) the percentage
change is the ordinary finite value. -/
theorem c7_witness :
    ((simResultOf (metricsOf tSim) (metricsOf (applyPolicy pAll tSim))).baseline.portfolio_balance ≠ 0 →
      (simResultOf (metricsOf tSim) (metricsOf (applyPolicy pAll tSim))).balance_change =
        PctResult.pct
          (((simResultOf (metricsOf tSim) (metricsOf (applyPolicy pAll tSim))).simulated.portfolio_balance -
            (simResultOf (metricsOf tSim) (metricsOf (applyPolicy pAll tSim))).baseline.portfolio_balance) /
            (simResultOf (metricsOf tSim) (metricsOf (applyPolicy pAll tSim))).baseline.portfolio_balance * 100)) ∧
    ((simResultOf (metricsOf tSim) (metricsOf (applyPolicy pAll tSim))).baseline.portfolio_balance = 0 →
      ((simResultOf (metricsOf tSim) (metricsOf (applyPolicy pAll tSim))).simulated.portfolio_balance = 0 →
        (simResultOf (metricsOf tSim) (metricsOf (applyPolicy pAll tSim))).balance_change = PctResult.nan) ∧
      (0 < (simResultOf (metricsOf tSim) (metricsOf (applyPolicy pAll tSim))).simulated.portfolio_balance →
        (simResultOf (metricsOf tSim) (metricsOf (applyPolicy pAll tSim))).balance_change = PctResult.posInf) ∧
      ((simResultOf (metricsOf tSim) (metricsOf (applyPolicy pAll tSim))).simulated.portfolio_balance < 0 →
        (simResultOf (metricsOf tSim) (metricsOf (applyPolicy pAll tSim))).balance_change = PctResult.negInf)) :=
  c7_balance_pct_division tSim pAll
    (simResultOf (metricsOf tSim) (metricsOf (applyPolicy pAll tSim))) (by rfl)

/-- C7 counterexample: on `tDecl` the baseline balance is 0 and the
percentage change evaluates to `NaN` (0/0), not to a defined `0`. -/
theorem c7_counterexample :
    Option.map SimResult.balance_change (create_strategy_simulation pAll tDecl) =
        some PctResult.nan ∧
      PctResult.nan ≠ PctResult.pct 0 := by
  constructor
  · rw [css_eq pAll tDecl (by rfl)]
    show some (pctChange (metricsOf (applyPolicy pAll tDecl)).portfolio_balance
      (metricsOf tDecl).portfolio_balance) = some PctResult.nan
    have hB : (metricsOf tDecl).portfolio_balance = 0 := by decide
    have hS : (metricsOf (applyPolicy pAll tDecl)).portfolio_balance = 0 := by decide
    rw [hB, hS, ((pctChange_spec 0 0).2 rfl).1 rfl]
  · decide

/-- C8: the high-risk filter returns exactly the approved rows passing the
three thresholds (a permutation of the selection), ordered descending by
`risk_score` when that column is present and otherwise descending
lexicographically by `(delinquency_status, utilization_rate)`. -/
theorem c8_high_risk_filter : ∀ (min_balance max_score min_utilization : ℚ) (rows : List Row),
    (filter_high_risk true min_balance max_score min_utilization rows).Perm
        (hrSelect min_balance max_score min_utilization rows) ∧
      List.Sorted riskDesc (filter_high_risk true min_balance max_score min_utilization rows) ∧
      (filter_high_risk false min_balance max_score min_utilization rows).Perm
        (hrSelect min_balance max_score min_utilization rows) ∧
      List.Sorted hrLex (filter_high_risk false min_balance max_score min_utilization rows) := by
  intro mb ms mu rows
  refine ⟨?_, ?_, ?_, ?_⟩
  · show (List.insertionSort riskDesc (hrSelect mb ms mu rows)).Perm (hrSelect mb ms mu rows)
    exact List.perm_insertionSort riskDesc (hrSelect mb ms mu rows)
  · show List.Sorted riskDesc (List.insertionSort riskDesc (hrSelect mb ms mu rows))
    exact List.sorted_insertionSort riskDesc (hrSelect mb ms mu rows)
  · show (List.insertionSort hrLex (hrSelect mb ms mu rows)).Perm (hrSelect mb ms mu rows)
    exact List.perm_insertionSort hrLex (hrSelect mb ms mu rows)
  · show List.Sorted hrLex (List.insertionSort hrLex (hrSelect mb ms mu rows))
    exact List.sorted_insertionSort hrLex (hrSelect mb ms mu rows)

/-- C10: the simulated working copy only demotes rows (never promotes a
Declined row to Approved), so the simulated approved count never exceeds
the baseline one, and with non-negative balances the simulated portfolio
balance never exceeds the baseline one. -/
theorem c10_policy_only_demotes : ∀ (rows : List Row) (p : Policy) (m0 m1 : Metrics),
    calculate_portfolio_metrics rows = some m0 →
    calculate_portfolio_metrics (applyPolicy p rows) = some m1 →
    List.Forall₂
        (fun s r => s.acceptance_decision = "Approved" → r.acceptance_decision = "Approved")
        (applyPolicy p rows) rows ∧
      m1.approved_customers ≤ m0.approved_customers ∧
      ((∀ r ∈ rows, 0 ≤ r.balance) → m1.portfolio_balance ≤ m0.portfolio_balance) := by
  intro rows p m0 m1 h0 h1
  have e0 := metrics_some_inv h0
  have e1 := metrics_some_inv h1
  subst e0
  subst e1
  have key : rows.filter (fun r => eligibleRow p r && (r.acceptance_decision == "Approved")) =
      List.filter (fun r => eligibleRow p r) (approved_df rows) := by
    unfold approved_df
    rw [List.filter_filter]
  refine ⟨?_, ?_, ?_⟩
  · rw [applyPolicy, List.forall₂_map_left_iff, List.forall₂_same]
    intro r _
    exact fun h => applyPolicyRow_approved h
  · show (approved_df (applyPolicy p rows)).length ≤ (approved_df rows).length
    rw [approved_df_applyPolicy, key]
    exact List.Sublist.length_le (List.filter_sublist (approved_df rows))
  · intro hb
    show ((approved_df (applyPolicy p rows)).map Row.balance).sum ≤
      ((approved_df rows).map Row.balance).sum
    rw [approved_df_applyPolicy, key]
    apply List.Sublist.sum_le_sum
    · exact List.Sublist.map Row.balance (List.filter_sublist (approved_df rows))
    · intro a ha
      rcases List.mem_map.mp ha with ⟨r, hr, hra⟩
      rw [← hra]
      exact hb r (List.mem_of_mem_filter hr)

/-- C10 witness: on `tSim` with policy `pHi` the Forall₂ demotion relation
holds, the simulated approved count is bounded by the baseline one, and
with the (non-negative) balances of `tSim` so is the portfolio balance. -/
theorem c10_witness :
    List.Forall₂
        (fun s r => s.acceptance_decision = "Approved" → r.acceptance_decision = "Approved")
        (applyPolicy pHi tSim) tSim ∧
      (metricsOf (applyPolicy pHi tSim)).approved_customers ≤
        (metricsOf tSim).approved_customers ∧
      ((∀ r ∈ tSim, 0 ≤ r.balance) →
        (metricsOf (applyPolicy pHi tSim)).portfolio_balance ≤
          (metricsOf tSim).portfolio_balance) :=
  c10_policy_only_demotes tSim pHi (metricsOf tSim) (metricsOf (applyPolicy pHi tSim))
    (by rfl) (by rfl)
